import Mathlib

/-!
Verification of the bbsxtra speed-PID / current-ramp control core
(src/src/test_harnesses/simulate_speed_pid.c).

Shallow embedding conventions:
- C unsigned integers are modelled as Nat; every operation whose C
  semantics can wrap carries an explicit reduction modulo 2^8, 2^16 or
  2^32 at the place the C code converts or overflows.
- The C float accumulator i_term only ever takes values that are integer
  multiples of 1/1000 under exact real arithmetic, because the gains are
  0.004 = 4/1000, 0.10 = 100/1000 and 0.01 = 10/1000 and every reset and
  clamp bound is an integer.  It is therefore represented exactly by the
  integer iTermX1000 = 1000 * i_term (exact rational semantics; IEEE
  rounding of the C float is idealised away, and none of the properties
  proved below depends on rounding: they depend only on the clamp
  structure).
- The C conversion (int16_t) of the float PID output truncates toward
  zero; values outside the int16 range would be undefined behaviour in C,
  and the embedding extends it by plain truncation toward zero.
-/

/-- Modulus of the 32-bit millisecond clock. -/
def M32 : Nat := 4294967296

/-- Modulus of the 16-bit time differences. -/
def M16 : Nat := 65536

/-- Unsigned 32-bit subtraction, (a - b) mod 2^32. -/
def sub32 (a b : Nat) : Nat := (a + (M32 - b % M32)) % M32

/-- The 16-bit elapsed-time computation shared by all three stages:
the uint32 subtraction now - last, converted to uint16. -/
def timeDiff (now last : Nat) : Nat := sub32 now last % M16

/-- Interpret a Nat as the int16 obtained by truncating to 16 bits
(the C cast (int16_t) of an unsigned value). -/
def toInt16 (x : Nat) : Int := if x % 65536 < 32768 then (x % 65536 : Int) else (x % 65536 : Int) - 65536

/-- Wrap an Int into the int16 range (C assignment of an int expression
to an int16_t variable). -/
def wrap16 (x : Int) : Int := (x + 32768) % 65536 - 32768

/-- Truncation toward zero of n / 1000, the C float-to-int conversion of
the PID output whose exact value is n/1000. -/
def truncDiv1000 (n : Int) : Int :=
if 0 ≤ n then Int.ofNat (n.toNat / 1000) else - Int.ofNat ((- n).toNat / 1000)

def WHEEL_CIRCUMFERENCE_MM : Nat := 2268

def MAX_CURRENT_AMPS : Nat := 25

def CURRENT_RAMP_AMPS_S : Nat := 8

def CURRENT_RAMP_DOWN_PERCENT_10MS : Nat := 5

/-- Global ramp_up_current_interval_ms = (MAX_CURRENT_AMPS * 10u) / CURRENT_RAMP_AMPS_S. -/
def ramp_up_current_interval_ms : Nat := MAX_CURRENT_AMPS * 10 / CURRENT_RAMP_AMPS_S

/-- convert_wheel_speed_kph_to_rpm: speed_kph * 100000 / (WHEEL_CIRCUMFERENCE_MM * 6),
computed in uint32 (no wrap possible for uint8 input). -/
def convert_wheel_speed_kph_to_rpm (speed_kph : Nat) : Nat :=
speed_kph * 100000 / (WHEEL_CIRCUMFERENCE_MM * 6)

/-- Persistent state of one ramp shaper: the static variables
ramp_(up|down)_target_current and last_ramp_(up|down)_(increment|decrement)_ms. -/
structure RampState where
  target : Nat
  lastMs : Nat
deriving DecidableEq, Repr

/-- apply_current_ramp_up.  Arguments: the in/out target current tc, the
enable flag, the clock system_ms, and the shaper state.  Returns the new
target current and the new state. -/
def apply_current_ramp_up (tc : Nat) (enable : Bool) (system_ms : Nat) (st : RampState) : Nat × RampState :=
if enable = true ∧ st.target < tc then
  let td := timeDiff system_ms st.lastMs
  if ramp_up_current_interval_ms ≤ td then
    let tgt := (st.target + 1) % 256
    let last := if st.lastMs = 0 then system_ms
      else sub32 system_ms ((td - ramp_up_current_interval_ms) % 256)
    (tgt, ⟨tgt, last⟩)
  else
    (st.target, st)
else
  (tc, ⟨tc, 0⟩)

/-- apply_current_ramp_down.  Same calling convention as the ramp-up shaper. -/
def apply_current_ramp_down (tc : Nat) (enable : Bool) (system_ms : Nat) (st : RampState) : Nat × RampState :=
if enable = true ∧ tc < st.target then
  let td := timeDiff system_ms st.lastMs
  if 10 ≤ td then
    let diff := st.target - tc
    let tgt := if CURRENT_RAMP_DOWN_PERCENT_10MS ≤ diff
      then st.target - CURRENT_RAMP_DOWN_PERCENT_10MS
      else st.target - diff
    let last := if st.lastMs = 0 then system_ms
      else sub32 system_ms ((td - 10) % 256)
    (tgt, ⟨tgt, last⟩)
  else
    (st.target, st)
else
  (tc, ⟨tc, 0⟩)

/-- Persistent state of apply_speed_limit: the static variables last_pid_ms,
last_speed_rpm_x10, clamped_output, i_term (represented exactly as
iTermX1000 = 1000 * i_term) and speed_limiting. -/
structure PidState where
  lastPidMs : Nat
  lastSpeedRpmX10 : Nat
  clampedOutput : Nat
  iTermX1000 : Int
  speedLimiting : Bool
deriving DecidableEq, Repr

/-- Initial PID state: last_pid_ms = 50, everything else zero / false. -/
def initPidState : PidState := ⟨50, 0, 0, 0, false⟩

/-- Body of the 60 ms evaluation block of apply_speed_limit (the code
inside if (time_diff >= 60)): the reset-after-2s check, the error and
integral accumulation with its clamp, the derivative on measured speed,
the PID output with its [1, tc] clamp, and the commit of the loop
variables. -/
def pid_evaluate (max_speed_rpm_x10 : Nat) (tc : Nat) (current_speed : Nat) (system_ms : Nat) (st : PidState) : PidState :=
  let td := timeDiff system_ms st.lastPidMs
  let cs := convert_wheel_speed_kph_to_rpm (current_speed % 256) * 10
  let lastSpeed0 := if 2000 ≤ td then cs else st.lastSpeedRpmX10
  let iTerm0 : Int := if 2000 ≤ td then 1000 * (tc : Int) else st.iTermX1000
  let err : Int := wrap16 (toInt16 max_speed_rpm_x10 - toInt16 cs)
  let iTerm1 : Int := iTerm0 + 4 * err
  let iTerm2 : Int := min (max iTerm1 0) (1000 * (tc : Int))
  let dInput : Int := wrap16 (toInt16 cs - toInt16 lastSpeed0)
  let output : Int := truncDiv1000 (100 * err + iTerm2 - 10 * dInput)
  let clamped : Nat := if output < 1 then 1
    else if (tc : Int) < output then tc
    else output.toNat % 256
  { lastPidMs := system_ms, lastSpeedRpmX10 := cs, clampedOutput := clamped,
    iTermX1000 := iTerm2, speedLimiting := st.speedLimiting }

/-- apply_speed_limit, parameterised by the local max_speed_rpm_x10 (in the
source a local computed from the compile-time 25 km/h ceiling; kept as a
parameter so the zero-ceiling configuration is expressible).  Arguments:
that ceiling, the in/out target current tc, current_speed, the clock
system_ms, and the controller state. -/
def apply_speed_limit (max_speed_rpm_x10 : Nat) (tc : Nat) (current_speed : Nat) (system_ms : Nat) (st : PidState) : Nat × PidState :=
if 0 < max_speed_rpm_x10 ∧ 0 < tc then
  let st1 : PidState :=
    if 60 ≤ timeDiff system_ms st.lastPidMs
      then pid_evaluate max_speed_rpm_x10 tc current_speed system_ms st
      else st
  if st1.clampedOutput < tc then
    (st1.clampedOutput, { st1 with speedLimiting := true })
  else
    (tc, { st1 with speedLimiting := false })
else
  (tc, st)

/-- The concrete max_speed_rpm_x10 of the source: convert_wheel_speed_kph_to_rpm(25) * 10. -/
def max_speed_rpm_x10_default : Nat := convert_wheel_speed_kph_to_rpm 25 * 10

/-- Combined persistent state of the three pipeline stages. -/
structure SysState where
  pid : PidState
  up : RampState
  down : RampState
deriving DecidableEq, Repr

/-- Initial state of the whole pipeline. -/
def initSysState : SysState := ⟨initPidState, ⟨0, 0⟩, ⟨0, 0⟩⟩

/-- One control tick's inputs: requested current, measured speed (km/h),
clock reading, and the two shaper enable flags. -/
structure TickIn where
  req : Nat
  speed : Nat
  now : Nat
  enUp : Bool
  enDown : Bool
deriving DecidableEq, Repr

/-- One full pipeline tick: apply_speed_limit, then apply_current_ramp_up,
then apply_current_ramp_down, as in the simulation loop. -/
def systemTick (st : SysState) (i : TickIn) : SysState × Nat :=
  let r1 := apply_speed_limit max_speed_rpm_x10_default i.req i.speed i.now st.pid
  let r2 := apply_current_ramp_up r1.1 i.enUp i.now st.up
  let r3 := apply_current_ramp_down r2.1 i.enDown i.now st.down
  (⟨r1.2, r2.2, r3.2⟩, r3.1)

/-- Run a list of ticks from a state, collecting the shaped output of each tick. -/
def runOutputs : SysState → List TickIn → List Nat
  | _, [] => []
  | st, i :: is =>
    let r := systemTick st i
    r.2 :: runOutputs r.1 is

/-- C4: all three stages compute elapsed time with the shared modular
uint16 reduction of a uint32 subtraction (definition timeDiff, used by
apply_current_ramp_up, apply_current_ramp_down and apply_speed_limit).
For any baseline and any true elapsed time that fits the 16-bit
difference, the computed difference equals the true elapsed time even
when the 32-bit clock wraps, so after a wrap no spurious huge difference
appears and the 60 ms PID guard admits an evaluation exactly when the
true elapsed time reaches 60. -/
theorem timeDiff_exact_across_wrap (last e : Nat) (h1 : last < M32) (h2 : e < M16) :
    timeDiff ((last + e) % M32) last = e
    ∧ (60 ≤ timeDiff ((last + e) % M32) last ↔ 60 ≤ e) := by
  have h : timeDiff ((last + e) % M32) last = e := by
    unfold timeDiff sub32 M32 M16 at *
    omega
  exact ⟨h, by rw [h]⟩

theorem timeDiff_exact_across_wrap_witness :
    timeDiff ((4294967290 + 100) % M32) 4294967290 = 100
    ∧ (60 ≤ timeDiff ((4294967290 + 100) % M32) 4294967290 ↔ 60 ≤ 100) :=
  timeDiff_exact_across_wrap 4294967290 100 (by decide) (by decide)

/-- C6: when ramp-down is enabled, the request is strictly below the
internal ramp target and at least one 10 ms interval has elapsed, the
target decreases by exactly CURRENT_RAMP_DOWN_PERCENT_10MS, or by the
remaining difference when that is smaller; it never undershoots the
request, the call returns the new target, and once the remaining
difference is at most one decrement the target lands exactly on the
request. -/
theorem ramp_down_decrement_exact (tc now : Nat) (st : RampState)
    (h1 : tc < st.target) (h2 : 10 ≤ timeDiff now st.lastMs) :
    (apply_current_ramp_down tc true now st).2.target
        = st.target - min CURRENT_RAMP_DOWN_PERCENT_10MS (st.target - tc)
    ∧ tc ≤ (apply_current_ramp_down tc true now st).2.target
    ∧ (apply_current_ramp_down tc true now st).1 = (apply_current_ramp_down tc true now st).2.target
    ∧ (st.target - tc ≤ CURRENT_RAMP_DOWN_PERCENT_10MS →
        (apply_current_ramp_down tc true now st).2.target = tc) := by
  simp only [apply_current_ramp_down, if_pos (And.intro rfl h1), if_pos h2]
  simp only [CURRENT_RAMP_DOWN_PERCENT_10MS, Nat.min_def]
  split_ifs <;> simp_all <;> omega

theorem ramp_down_decrement_exact_witness :
    (apply_current_ramp_down 90 true 20 ⟨100, 0⟩).2.target
        = 100 - min CURRENT_RAMP_DOWN_PERCENT_10MS (100 - 90)
    ∧ 90 ≤ (apply_current_ramp_down 90 true 20 ⟨100, 0⟩).2.target
    ∧ (apply_current_ramp_down 90 true 20 ⟨100, 0⟩).1
        = (apply_current_ramp_down 90 true 20 ⟨100, 0⟩).2.target
    ∧ (100 - 90 ≤ CURRENT_RAMP_DOWN_PERCENT_10MS →
        (apply_current_ramp_down 90 true 20 ⟨100, 0⟩).2.target = 90) :=
  ramp_down_decrement_exact 90 20 ⟨100, 0⟩ (by decide) (by decide)

/-- C7: a shaper called disabled, or with its precondition false
(ramp-up: request not strictly above the internal target; ramp-down: not
strictly below), returns the request unchanged, resynchronizes its
internal target to the request, and resets its stored timestamp to the
unset value 0, on that very call. -/
theorem ramp_resync_on_disable_or_precondition
    (tcU tcD nowU nowD : Nat) (eU eD : Bool) (stU stD : RampState)
    (hU : eU = false ∨ ¬ stU.target < tcU)
    (hD : eD = false ∨ ¬ tcD < stD.target) :
    apply_current_ramp_up tcU eU nowU stU = (tcU, ⟨tcU, 0⟩)
    ∧ apply_current_ramp_down tcD eD nowD stD = (tcD, ⟨tcD, 0⟩) := by
  constructor
  · unfold apply_current_ramp_up
    rw [if_neg]
    rintro ⟨he, hlt⟩
    rcases hU with h | h
    · rw [h] at he
      exact Bool.false_ne_true he
    · exact h hlt
  · unfold apply_current_ramp_down
    rw [if_neg]
    rintro ⟨he, hlt⟩
    rcases hD with h | h
    · rw [h] at he
      exact Bool.false_ne_true he
    · exact h hlt

theorem ramp_resync_on_disable_or_precondition_witness :
    apply_current_ramp_up 7 false 12 ⟨3, 5⟩ = (7, ⟨7, 0⟩)
    ∧ apply_current_ramp_down 9 true 12 ⟨9, 4⟩ = (9, ⟨9, 0⟩) :=
  ramp_resync_on_disable_or_precondition 7 9 12 12 false true ⟨3, 5⟩ ⟨9, 4⟩
    (Or.inl rfl) (Or.inr (by decide))

/-- C9: apply_current_ramp_down has no 50 percent threshold, despite the
in-code comment about a fast path above 50 percent.  First conjunct:
shifting the request and the internal target by any common offset shifts
the result by the same offset, so behaviour depends only on their
difference, never on the absolute level (in particular it is the same
above and below 50).  Second conjunct: the decrement path applies
whenever the shaper is enabled, the request is strictly below the target
and the 10 ms guard passes, with no further condition. -/
theorem ramp_down_no_fifty_threshold (s tc tgt l now : Nat) (enable : Bool) :
    (apply_current_ramp_down (tc + s) enable now ⟨tgt + s, l⟩
        = ((apply_current_ramp_down tc enable now ⟨tgt, l⟩).1 + s,
           ⟨(apply_current_ramp_down tc enable now ⟨tgt, l⟩).2.target + s,
            (apply_current_ramp_down tc enable now ⟨tgt, l⟩).2.lastMs⟩))
    ∧ (enable = true → tc < tgt → 10 ≤ timeDiff now l →
        (apply_current_ramp_down tc enable now ⟨tgt, l⟩).2.target
          = tgt - min CURRENT_RAMP_DOWN_PERCENT_10MS (tgt - tc)) := by
  constructor
  · simp only [apply_current_ramp_down, Nat.add_lt_add_iff_right]
    split_ifs <;> simp_all [Prod.ext_iff, RampState.mk.injEq] <;> omega
  · intro he h1 h2
    subst he
    simp only [apply_current_ramp_down, if_pos (And.intro rfl h1), if_pos h2]
    simp only [CURRENT_RAMP_DOWN_PERCENT_10MS, Nat.min_def]
    split_ifs <;> simp_all

theorem ramp_down_no_fifty_threshold_witness :
    (apply_current_ramp_down (3 + 60) true 20 ⟨7 + 60, 5⟩
        = ((apply_current_ramp_down 3 true 20 ⟨7, 5⟩).1 + 60,
           ⟨(apply_current_ramp_down 3 true 20 ⟨7, 5⟩).2.target + 60,
            (apply_current_ramp_down 3 true 20 ⟨7, 5⟩).2.lastMs⟩))
    ∧ (apply_current_ramp_down 3 true 20 ⟨7, 5⟩).2.target
        = 7 - min CURRENT_RAMP_DOWN_PERCENT_10MS (7 - 3) :=
  ⟨(ramp_down_no_fifty_threshold 60 3 7 5 20 true).1,
   (ramp_down_no_fifty_threshold 60 3 7 5 20 true).2 rfl (by decide) (by decide)⟩

/-- C5 counterexample: a non-first ramp-up increment with overshoot 256.
At baseline 100 and clock 387 the elapsed time is 287, the nominal
interval is 31, so the overshoot is 256; the claim predicts the new
baseline 387 - 256 = 131, but the code narrows the overshoot through a
uint8 cast, subtracts 256 mod 256 = 0, and stores 387. -/
theorem ramp_overshoot_cast_cex :
    timeDiff 387 100 - ramp_up_current_interval_ms = 256
    ∧ (apply_current_ramp_up 5 true 387 ⟨0, 100⟩).2.lastMs = 387
    ∧ 387 - (timeDiff 387 100 - ramp_up_current_interval_ms) = 131
    ∧ (387 : Nat) ≠ 131 := by
  decide

/-- C5 amended: after a non-first increment or decrement, the stored
baseline equals now minus the overshoot reduced modulo 256 (in 32-bit
modular subtraction), because the code casts the overshoot to uint8
before subtracting; this equals now minus the overshoot exactly when
the overshoot is below 256 (last conjunct). -/
theorem ramp_baseline_overshoot_mod256 (tc now : Nat) (st : RampState) (h0 : st.lastMs ≠ 0) :
    (st.target < tc → ramp_up_current_interval_ms ≤ timeDiff now st.lastMs →
      (apply_current_ramp_up tc true now st).2.lastMs
        = sub32 now ((timeDiff now st.lastMs - ramp_up_current_interval_ms) % 256))
    ∧ (tc < st.target → 10 ≤ timeDiff now st.lastMs →
      (apply_current_ramp_down tc true now st).2.lastMs
        = sub32 now ((timeDiff now st.lastMs - 10) % 256))
    ∧ (∀ osh : Nat, osh < 256 → osh ≤ now → now < M32 →
        sub32 now (osh % 256) = now - osh) := by
  refine ⟨?_, ?_, ?_⟩
  · intro h1 h2
    simp only [apply_current_ramp_up, if_pos (And.intro rfl h1), if_pos h2, if_neg h0]
    simp [h1]
  · intro h1 h2
    simp only [apply_current_ramp_down, if_pos (And.intro rfl h1), if_pos h2, if_neg h0]
    simp [h1]
  · intro osh ho hn hm
    unfold sub32 M32 at *
    omega

theorem ramp_baseline_overshoot_mod256_witness :
    (0 < 5 → ramp_up_current_interval_ms ≤ timeDiff 387 100 →
      (apply_current_ramp_up 5 true 387 ⟨0, 100⟩).2.lastMs
        = sub32 387 ((timeDiff 387 100 - ramp_up_current_interval_ms) % 256))
    ∧ (5 < 0 → 10 ≤ timeDiff 387 100 →
      (apply_current_ramp_down 5 true 387 ⟨0, 100⟩).2.lastMs
        = sub32 387 ((timeDiff 387 100 - 10) % 256))
    ∧ (∀ osh : Nat, osh < 256 → osh ≤ 387 → 387 < M32 →
        sub32 387 (osh % 256) = 387 - osh) :=
  ramp_baseline_overshoot_mod256 5 387 ⟨0, 100⟩ (by decide)

/-- C10: the clock value 0 doubles as the unset-timestamp sentinel.  With
a freshly resynchronized shaper (stored timestamp 0) the elapsed time is
measured against clock value 0: it equals the clock reading reduced
modulo 2^32 and then 2^16 (first conjunct), the first step fires exactly
when that reading reaches the interval, and when it fires the baseline
is set to now with no overshoot subtraction (remaining conjuncts, for
both shapers, including the non-firing cases). -/
theorem ramp_first_step_after_resync (tcU tgtU tcD tgtD now : Nat)
    (hU : tgtU < tcU) (hD : tcD < tgtD) :
    timeDiff now 0 = now % M32 % M16
    ∧ (ramp_up_current_interval_ms ≤ timeDiff now 0 →
        apply_current_ramp_up tcU true now ⟨tgtU, 0⟩
          = ((tgtU + 1) % 256, ⟨(tgtU + 1) % 256, now⟩))
    ∧ (timeDiff now 0 < ramp_up_current_interval_ms →
        apply_current_ramp_up tcU true now ⟨tgtU, 0⟩ = (tgtU, ⟨tgtU, 0⟩))
    ∧ (10 ≤ timeDiff now 0 →
        (apply_current_ramp_down tcD true now ⟨tgtD, 0⟩).2.lastMs = now
        ∧ (apply_current_ramp_down tcD true now ⟨tgtD, 0⟩).2.target
            = tgtD - min CURRENT_RAMP_DOWN_PERCENT_10MS (tgtD - tcD))
    ∧ (timeDiff now 0 < 10 →
        apply_current_ramp_down tcD true now ⟨tgtD, 0⟩ = (tgtD, ⟨tgtD, 0⟩)) := by
  refine ⟨?_, ?_, ?_, ?_, ?_⟩
  · unfold timeDiff sub32 M32 M16
    omega
  · intro h
    simp only [apply_current_ramp_up, if_pos (And.intro rfl hU), if_pos h, if_pos rfl]
    simp [hU]
  · intro h
    simp only [apply_current_ramp_up,
      if_neg (by omega : ¬ ramp_up_current_interval_ms ≤ timeDiff now 0)]
    simp [hU]
  · intro h
    simp only [apply_current_ramp_down, if_pos (And.intro rfl hD), if_pos h, if_pos rfl]
    refine ⟨by simp [hD], ?_⟩
    simp only [CURRENT_RAMP_DOWN_PERCENT_10MS, Nat.min_def]
    split_ifs <;> simp_all
  · intro h
    simp only [apply_current_ramp_down,
      if_neg (by omega : ¬ 10 ≤ timeDiff now 0)]
    simp [hD]

theorem ramp_first_step_after_resync_witness :
    timeDiff 40 0 = 40 % M32 % M16
    ∧ (ramp_up_current_interval_ms ≤ timeDiff 40 0 →
        apply_current_ramp_up 9 true 40 ⟨2, 0⟩ = ((2 + 1) % 256, ⟨(2 + 1) % 256, 40⟩))
    ∧ (timeDiff 40 0 < ramp_up_current_interval_ms →
        apply_current_ramp_up 9 true 40 ⟨2, 0⟩ = (2, ⟨2, 0⟩))
    ∧ (10 ≤ timeDiff 40 0 →
        (apply_current_ramp_down 4 true 40 ⟨20, 0⟩).2.lastMs = 40
        ∧ (apply_current_ramp_down 4 true 40 ⟨20, 0⟩).2.target
            = 20 - min CURRENT_RAMP_DOWN_PERCENT_10MS (20 - 4))
    ∧ (timeDiff 40 0 < 10 →
        apply_current_ramp_down 4 true 40 ⟨20, 0⟩ = (20, ⟨20, 0⟩)) :=
  ramp_first_step_after_resync 9 2 4 20 40 (by decide) (by decide)

/-- C8: with a zero speed ceiling or a zero input target current,
apply_speed_limit returns its input unchanged and leaves every component
of its internal state untouched. -/
theorem speed_limit_noop_on_zero (m tc speed now : Nat) (st : PidState)
    (h : m = 0 ∨ tc = 0) :
    apply_speed_limit m tc speed now st = (tc, st) := by
  unfold apply_speed_limit
  rw [if_neg]
  rintro ⟨h1, h2⟩
  rcases h with h | h <;> omega

theorem speed_limit_noop_on_zero_witness :
    apply_speed_limit 0 5 3 100 initPidState = (5, initPidState) :=
  speed_limit_noop_on_zero 0 5 3 100 initPidState (Or.inl rfl)

/-- Helper: at an evaluation the committed clamped output is at least 1. -/
lemma pid_evaluate_clamped_ge_one (m tc speed now : Nat) (st : PidState)
    (htc : 0 < tc) (h255 : tc ≤ 255) :
    1 ≤ (pid_evaluate m tc speed now st).clampedOutput := by
  simp only [pid_evaluate]
  split_ifs <;> omega

/-- Helper: at an evaluation the committed clamped output is at most the
input target current (tc within the uint8 range). -/
lemma pid_evaluate_clamped_le (m tc speed now : Nat) (st : PidState)
    (htc : 0 < tc) (h255 : tc ≤ 255) :
    (pid_evaluate m tc speed now st).clampedOutput ≤ tc := by
  simp only [pid_evaluate]
  split_ifs <;> omega

/-- Helper: at an evaluation the integral accumulator lands in
[0, 1000 * tc] (thousandths of the unshaped target current). -/
lemma pid_evaluate_iterm_bounds (m tc speed now : Nat) (st : PidState) :
    0 ≤ (pid_evaluate m tc speed now st).iTermX1000
    ∧ (pid_evaluate m tc speed now st).iTermX1000 ≤ 1000 * (tc : Int) := by
  simp only [pid_evaluate]
  constructor
  · exact le_min (le_max_right _ _) (by positivity)
  · exact min_le_right _ _

/-- Helper: apply_speed_limit never returns more than its input target current. -/
lemma speed_limit_fst_le (m tc speed now : Nat) (st : PidState) :
    (apply_speed_limit m tc speed now st).1 ≤ tc := by
  by_cases hcond : 0 < m ∧ 0 < tc
  · simp only [apply_speed_limit, if_pos hcond]
    split_ifs <;> simp_all <;> omega
  · simp only [apply_speed_limit, if_neg hcond]
    exact le_rfl

/-- Helper: the stored clamped output stays at most 100 when the input
target and the previously stored clamped output are at most 100. -/
lemma speed_limit_clamped_le_100 (m tc speed now : Nat) (st : PidState)
    (h1 : tc ≤ 100) (h2 : st.clampedOutput ≤ 100) :
    (apply_speed_limit m tc speed now st).2.clampedOutput ≤ 100 := by
  by_cases hcond : 0 < m ∧ 0 < tc
  · have hb := pid_evaluate_clamped_le m tc speed now st hcond.2 (by omega)
    simp only [apply_speed_limit, if_pos hcond]
    split_ifs <;> simp_all <;> omega
  · simp only [apply_speed_limit, if_neg hcond]
    exact h2

/-- C2: apply_speed_limit always returns a current at most its input, and
whenever the elapsed-time guard admits a PID evaluation (and the stage is
not short-circuited) the committed clamped output lies in [1, input
target current]: the controller never drives the current below 1 percent
while limiting.  The hypothesis tc at most 255 is the uint8 range of the
target-current argument. -/
theorem speed_limit_monotone_and_output_clamped
    (m tc speed now : Nat) (st : PidState) (htc255 : tc ≤ 255) :
    (apply_speed_limit m tc speed now st).1 ≤ tc
    ∧ (0 < m → 0 < tc → 60 ≤ timeDiff now st.lastPidMs →
        1 ≤ (apply_speed_limit m tc speed now st).2.clampedOutput
        ∧ (apply_speed_limit m tc speed now st).2.clampedOutput ≤ tc) := by
  refine ⟨speed_limit_fst_le m tc speed now st, ?_⟩
  intro hm htc htd
  have h1 := pid_evaluate_clamped_ge_one m tc speed now st htc htc255
  have h2 := pid_evaluate_clamped_le m tc speed now st htc htc255
  simp only [apply_speed_limit, if_pos (And.intro hm htc), if_pos htd]
  split_ifs <;> simp_all

theorem speed_limit_monotone_and_output_clamped_witness :
    (apply_speed_limit max_speed_rpm_x10_default 100 0 5000 initPidState).1 ≤ 100
    ∧ (0 < max_speed_rpm_x10_default → 0 < 100 → 60 ≤ timeDiff 5000 initPidState.lastPidMs →
        1 ≤ (apply_speed_limit max_speed_rpm_x10_default 100 0 5000 initPidState).2.clampedOutput
        ∧ (apply_speed_limit max_speed_rpm_x10_default 100 0 5000 initPidState).2.clampedOutput ≤ 100) :=
  speed_limit_monotone_and_output_clamped max_speed_rpm_x10_default 100 0 5000 initPidState
    (by decide)

/-- C3: at every admitted PID evaluation the integral accumulator, after
the accumulate-and-clamp step, lies in [0, unshaped target current].  The
accumulator is represented exactly in thousandths (iTermX1000 = 1000 *
i_term), so the bounds read 0 and 1000 * tc. -/
theorem i_term_clamped_every_evaluation
    (m tc speed now : Nat) (st : PidState)
    (hm : 0 < m) (htc : 0 < tc) (htd : 60 ≤ timeDiff now st.lastPidMs) :
    0 ≤ (apply_speed_limit m tc speed now st).2.iTermX1000
    ∧ (apply_speed_limit m tc speed now st).2.iTermX1000 ≤ 1000 * (tc : Int) := by
  have hb := pid_evaluate_iterm_bounds m tc speed now st
  simp only [apply_speed_limit, if_pos (And.intro hm htc), if_pos htd]
  split_ifs <;> simp_all

theorem i_term_clamped_every_evaluation_witness :
    0 ≤ (apply_speed_limit max_speed_rpm_x10_default 100 0 5000 initPidState).2.iTermX1000
    ∧ (apply_speed_limit max_speed_rpm_x10_default 100 0 5000 initPidState).2.iTermX1000
        ≤ 1000 * (100 : Int) :=
  i_term_clamped_every_evaluation max_speed_rpm_x10_default 100 0 5000 initPidState
    (by decide) (by decide) (by decide)

/-- Helper: the ramp-up output never exceeds the requested input. -/
lemma ramp_up_fst_le (tc : Nat) (e : Bool) (now : Nat) (st : RampState) :
    (apply_current_ramp_up tc e now st).1 ≤ tc := by
  simp only [apply_current_ramp_up]
  split_ifs <;> simp_all <;> omega

/-- Helper: the ramp-up internal target never exceeds the requested input. -/
lemma ramp_up_target_le (tc : Nat) (e : Bool) (now : Nat) (st : RampState) :
    (apply_current_ramp_up tc e now st).2.target ≤ tc := by
  simp only [apply_current_ramp_up]
  split_ifs <;> simp_all <;> omega

/-- Helper: the ramp-down output and new target are bounded either by the
requested input or by the previous internal target. -/
lemma ramp_down_bounds (tc : Nat) (e : Bool) (now : Nat) (st : RampState) :
    ((apply_current_ramp_down tc e now st).1 ≤ tc
        ∧ (apply_current_ramp_down tc e now st).2.target ≤ tc)
    ∨ ((apply_current_ramp_down tc e now st).1 ≤ st.target
        ∧ (apply_current_ramp_down tc e now st).2.target ≤ st.target) := by
  simp only [apply_current_ramp_down]
  split_ifs <;> simp_all

/-- State invariant for the pipeline: every persistent current percentage
is at most 100. -/
abbrev SysInv (st : SysState) : Prop :=
  st.pid.clampedOutput ≤ 100 ∧ st.up.target ≤ 100 ∧ st.down.target ≤ 100

/-- C1 amended: a pipeline tick's shaped output lies in [0, max(that
tick's requested current, the ramp-down shaper's internal target at the
start of the tick)], and, as long as requests stay in [0, 100], outputs
stay in [0, 100] because the invariant SysInv is preserved from the
initial state.  The output can exceed the tick's own request while the
ramp-down shaper is still decaying from an earlier, higher level. -/
theorem pipeline_output_bounded_by_run_history (st : SysState) (i : TickIn)
    (hreq : i.req ≤ 100) (hinv : SysInv st) :
    (systemTick st i).2 ≤ max i.req st.down.target
    ∧ (systemTick st i).2 ≤ 100
    ∧ SysInv (systemTick st i).1 := by
  obtain ⟨hc, hu, hd⟩ := hinv
  have hsl := speed_limit_fst_le max_speed_rpm_x10_default i.req i.speed i.now st.pid
  have hcl := speed_limit_clamped_le_100 max_speed_rpm_x10_default i.req i.speed i.now st.pid hreq hc
  have hru := ramp_up_fst_le
    (apply_speed_limit max_speed_rpm_x10_default i.req i.speed i.now st.pid).1 i.enUp i.now st.up
  have hrut := ramp_up_target_le
    (apply_speed_limit max_speed_rpm_x10_default i.req i.speed i.now st.pid).1 i.enUp i.now st.up
  have hrd := ramp_down_bounds
    (apply_current_ramp_up
      (apply_speed_limit max_speed_rpm_x10_default i.req i.speed i.now st.pid).1 i.enUp i.now st.up).1
    i.enDown i.now st.down
  have e2 : (systemTick st i).2
      = (apply_current_ramp_down
          (apply_current_ramp_up
            (apply_speed_limit max_speed_rpm_x10_default i.req i.speed i.now st.pid).1
            i.enUp i.now st.up).1
          i.enDown i.now st.down).1 := rfl
  have epid : (systemTick st i).1.pid
      = (apply_speed_limit max_speed_rpm_x10_default i.req i.speed i.now st.pid).2 := rfl
  have eup : (systemTick st i).1.up
      = (apply_current_ramp_up
          (apply_speed_limit max_speed_rpm_x10_default i.req i.speed i.now st.pid).1
          i.enUp i.now st.up).2 := rfl
  have edown : (systemTick st i).1.down
      = (apply_current_ramp_down
          (apply_current_ramp_up
            (apply_speed_limit max_speed_rpm_x10_default i.req i.speed i.now st.pid).1
            i.enUp i.now st.up).1
          i.enDown i.now st.down).2 := rfl
  refine ⟨?_, ?_, ?_, ?_, ?_⟩
  · rw [e2]
    rcases hrd with ⟨ho, _⟩ | ⟨ho, _⟩
    · exact le_trans (le_trans ho (le_trans hru hsl)) (Nat.le_max_left _ _)
    · exact le_trans ho (Nat.le_max_right _ _)
  · rw [e2]
    rcases hrd with ⟨ho, _⟩ | ⟨ho, _⟩ <;> omega
  · rw [epid]
    exact hcl
  · rw [eup]
    omega
  · rw [edown]
    rcases hrd with ⟨_, ht⟩ | ⟨_, ht⟩ <;> omega

theorem pipeline_output_bounded_by_run_history_witness :
    (systemTick initSysState ⟨100, 0, 5000, true, true⟩).2 ≤ max 100 0
    ∧ (systemTick initSysState ⟨100, 0, 5000, true, true⟩).2 ≤ 100
    ∧ SysInv (systemTick initSysState ⟨100, 0, 5000, true, true⟩).1 :=
  pipeline_output_bounded_by_run_history initSysState ⟨100, 0, 5000, true, true⟩
    (by decide) (by decide)

/-- The 101-tick trace refuting C1 as stated: 100 ticks requesting 100 at
31 ms spacing (speed 0, both shapers enabled), then one tick requesting
10. -/
def c1Inputs : List TickIn :=
  (List.range 100).map (fun k => ⟨100, 0, 5000 + 31 * k, true, true⟩) ++ [⟨10, 0, 8100, true, true⟩]

set_option maxRecDepth 100000 in
/-- C1 counterexample: on a tick sequence whose requests all lie in
[0, 100] and with every stage enabled, the final tick requests 10 but the
pipeline outputs 95 (the ramp-down shaper is still decaying from the
earlier level 100), so the shaped output is not within [0, that tick's
requested current]. -/
theorem pipeline_never_amplifies_cex :
    (∀ i ∈ c1Inputs, i.req ≤ 100 ∧ i.enUp = true ∧ i.enDown = true)
    ∧ (c1Inputs.getLast?).map TickIn.req = some 10
    ∧ (runOutputs initSysState c1Inputs).getLast? = some 95
    ∧ ¬ (95 ≤ 10) := by
  decide
